import Mathlib

/-!
# Verification of the SPACE-HAUC datalogger (src/src/main.c)

This file gives a shallow embedding of the datalogger portion of
`src/src/main.c` (functions `dlgr_init`, `dlgr_LogData`, `dlgr_retrieve`,
`dlgr_RetrieveData`, `dlgr_QueryMemorySize`, `dlgr_EditSettings`) and proves
or refutes the frozen claims about it.

Modelling conventions, all taken from the source:

* C `int` / `ssize_t` / `long` values are modelled as `Int` (unbounded; no
  claim in scope hinges on wrap-around).  C integer division (`maxDirSize /
  maxFileSize`, truncation toward zero) is written `Int.tdiv`, which has the
  same rounding.
* A module's on-disk directory `log/<module>/` is a `ModuleDir` record:
  the three configuration files (absent = `none`) and a map from the numeric
  index `N` of `<N>.dat` to its byte content.  Byte contents are `List Nat`.
* `fopen(..., "ab")` creates the file when absent; `ftell` immediately after
  it is modelled as the current file size (the code's own comment: "Fetch the
  current file size"; glibc reports the end-of-file position for append
  streams).  `fopen(..., "wb")` truncates/creates.  `remove` deletes the
  directory entry and fails exactly when the entry is absent; a stream that
  is still open on a removed entry writes to an orphaned inode, so writes
  through it are no longer visible in the directory - `appendAt` below
  appends only where the entry exists, which captures this.
* `fopen` calls on names the code itself just created, and `malloc`, are
  modelled as succeeding; the corresponding error paths (`ERR_MODU_OPEN`,
  `ERR_SETTINGS_OPEN` on a fresh "w" stream, `ERR_MALLOC`) are unreachable
  in the model and are not needed by any claim.
* The process working directory: every operation does `chdir("log")` then
  `chdir(moduleName)` and only the success paths `chdir("..")` back.  The
  state carries `cwdOk : Bool` ("the process is at the root").  Error
  returns taken after the chdirs leave the process inside the module
  directory, so they set `cwdOk := false`; with the directory layout the
  program creates (no nested `log` directories) every later `chdir("log")`
  from there fails, which is what the model's `cwdOk = false` guard returns.
  `dlgr_init` from a leaked working directory would create a nested layout;
  no claim exercises it and the model returns the marker `CRet.ub` there.
* `dlgr_settings` and `dlgr_modname` are C arrays of length `num_systems`
  holding indeterminate (malloc'd) data until written; they are modelled as
  total functions `Nat -> _` whose values at unwritten indices are the
  arbitrary junk the state was built with.  `num_systems` is the modules.h
  build constant (the count of enabled modules; the claims quantify over
  registered modules, so builds with at least one enabled module are the
  ones of interest).
* `fwrite(dataIn, sizeof(dataIn), 1, f)` in `dlgr_LogData` writes
  `sizeof(void*)` bytes from the caller's buffer; we model a 64-bit build,
  `PTR_SIZE = 8`.  The padding loop `fwrite(dataIn, 1, 1, 0)` passes the
  null pointer as the stream, which crashes the process (undefined
  behaviour); the result `CRet.segfault` records this, and the state
  returned with it is the on-disk state at the crash: stdio writes buffered
  on the not-yet-flushed data stream are lost, while the rotation's
  `remove`/`fopen`/index rewrite (syscalls, plus an explicit `sync()`) have
  already happened.
-/

set_option autoImplicit false
set_option maxRecDepth 8000

namespace Dlgr

/-- Association-list lookup: first entry with the given key (C: opening the
file with that name). -/
def alookup {α β : Type} [DecidableEq α] : List (α × β) → α → Option β
  | [], _ => none
  | (k, v) :: t, a => if k = a then some v else alookup t a

/-- Association-list write: replace the first entry with the given key, or
append a fresh entry (C: creating/truncating the file with that name). -/
def aset {α β : Type} [DecidableEq α] : List (α × β) → α → β → List (α × β)
  | [], a, b => [(a, b)]
  | (k, v) :: t, a, b => if k = a then (k, b) :: t else (k, v) :: aset t a b

/-- Association-list erase: drop the first entry with the given key
(C: `remove`). -/
def aerase {α β : Type} [DecidableEq α] : List (α × β) → α → List (α × β)
  | [], _ => []
  | (k, v) :: t, a => if k = a then t else (k, v) :: aerase t a

/-- Append bytes to the entry at key `i` when that entry exists; no effect
otherwise (a write through a stream whose directory entry was removed goes
to an orphaned inode and is never visible in the directory again). -/
def appendAt (fs : List (Int × List Nat)) (i : Int) (bytes : List Nat) :
    List (Int × List Nat) :=
  fs.map (fun p => if p.1 = i then (p.1, p.2 ++ bytes) else p)

/-- A C string pointer: the address (what pointer comparison `==` sees) and
the characters stored at it (what `chdir`/`fopen` see). -/
structure CStr where
  addr : Nat
  content : String
deriving DecidableEq, Repr

/-- One `datalogger_t` slot of the `dlgr_settings` array (main.c:200-206 of
main.h): `{ logIndex; moduleLogSize; maxFileSize; maxDirSize }`. -/
structure DlgrSlot where
  moduleLogSize : Int
  logIndex : Int
  maxFileSize : Int
  maxDirSize : Int
deriving DecidableEq, Repr

/-- The on-disk directory `log/<module>/`: `module.inf` (the record size),
`index.inf` (the active file index), `settings.cfg` (line 1 `maxFileSize`,
line 2 `maxDirSize`), and the `<N>.dat` files. -/
structure ModuleDir where
  moduleInf : Option Int
  indexInf : Option Int
  settingsCfg : Option (Int × Int)
  datFiles : List (Int × List Nat)
deriving DecidableEq, Repr

/-- Global state of the datalogger: the `dlgr_idx` cursor, the
`dlgr_modname` and `dlgr_settings` arrays (length `num_systems`; junk
beyond what was written), the `log/` tree, and the working-directory flag. -/
structure DlgrState where
  num_systems : Nat
  dlgr_idx : Nat
  modname : Nat → CStr
  settings : Nat → DlgrSlot
  dirs : List (String × ModuleDir)
  logDirExists : Bool
  cwdOk : Bool

/-- Result of a call: a C return value, a crash (`fwrite` to the null
stream in `dlgr_LogData`'s padding loop), or a loop that is still running
after the modelled number of iterations (`dlgr_RetrieveData`'s while loop
has no bound in the source). -/
inductive CRet where
  | ret (code : Int)
  | segfault
  | hang
  | ub
deriving DecidableEq, Repr

/-! Error codes, from the `ERROR` enum in main.h (ERR_INIT = -20 and each
successor one higher). -/

def ERR_SETTINGS_OPEN : Int := -19
def ERR_SETTINGS_SET : Int := -17
def ERR_DATA_OPEN : Int := -16
def ERR_DATA_REMOVE : Int := -15
def ERR_DATA_READ : Int := -14
def ERR_DEFAULT_CASE : Int := -13
def ERR_READ_NUM : Int := -8
def ERR_INVALID_INPUT : Int := -7
def ERR_MAXLOGSIZE_EXCEEDED : Int := -4
def ERR_CHDIR_FAIL : Int := -3

/-- `SETTING` enum: `MAX_FILE_SIZE = 0`. -/
def MAX_FILE_SIZE : Int := 0
/-- `SETTING` enum: `MAX_DIR_SIZE = 1`. -/
def MAX_DIR_SIZE : Int := 1
/-- main.h: files cannot exceed this limit (1 MiB). -/
def SIZE_FILE_HARDLIMIT : Int := 1048576
/-- main.h: directories cannot exceed this limit (16 MiB). -/
def SIZE_DIR_HARDLIMIT : Int := 16777216

/-- main.c:34: the 6-byte frame header magic "FBEGIN". -/
def FBEGIN : List Nat := [70, 66, 69, 71, 73, 78]
/-- main.c:35: the 4-byte frame footer magic "FEND". -/
def FEND : List Nat := [70, 69, 78, 68]

/-- `sizeof(void*)` on the modelled (64-bit) build; the byte count of
`fwrite(dataIn, sizeof(dataIn), 1, fDataDat)` at main.c:448. -/
def PTR_SIZE : Nat := 8

/-- The module-lookup loop shared by every post-init operation
(main.c:362-367, 518-523, 596-600, 614-618):
`for(; mod_idx < num_systems; mod_idx++) if (dlgr_modname[mod_idx] == moduleName) break;`
The comparison is C pointer equality, i.e. on addresses.  Returns the loop
counter's final value: the first matching index, or the bound when none
matches.  Structured on `remaining`, the number of loop tests left
(`bound - i`), so the final counter is `i + remaining` when nothing
matches. -/
def findIdxFrom (modname : Nat → CStr) (addr : Nat) (i : Nat) : Nat → Nat
  | 0 => i
  | remaining + 1 =>
    if (modname i).addr = addr then i
    else findIdxFrom modname addr (i + 1) remaining

/-- `mod_idx` as computed by the lookup loop on the current state: the loop
runs `num_systems` tests from index 0. -/
def dlgr_findIdx (st : DlgrState) (moduleName : CStr) : Nat :=
  findIdxFrom st.modname moduleName.addr 0 st.num_systems

/-- main.c:199-355, `dlgr_init(moduleName, maxLogSize)`.

Order of effects, as in the source: reject `maxLogSize < 1`
(ERR_INVALID_INPUT); store the name pointer at `dlgr_modname[dlgr_idx]`;
create `log/` and `log/<module>/` as needed and chdir in; `module.inf`:
read it if present (the argument is then ignored), else create it with the
argument; `index.inf`: read it if present, else create it with 0 and create
an empty `0.dat`; `settings.cfg`: read it if present, else create it with
defaults `8192`/`4194304` - in this branch the source never assigns the
in-memory `maxFileSize`/`maxDirSize`, so the slot keeps its junk values;
chdir back; `dlgr_idx++`; return 1. -/
def dlgr_init (st : DlgrState) (moduleName : CStr) (maxLogSize : Int) :
    CRet × DlgrState :=
  if maxLogSize < 1 then (.ret ERR_INVALID_INPUT, st)
  else
    let st := { st with modname := Function.update st.modname st.dlgr_idx moduleName }
    if st.cwdOk = false then (.ub, st)
    else
      let d0 : ModuleDir :=
        match alookup st.dirs moduleName.content with
        | some d => d
        | none => { moduleInf := none, indexInf := none, settingsCfg := none, datFiles := [] }
      let slot0 := st.settings st.dlgr_idx
      let p1 : ModuleDir × DlgrSlot :=
        match d0.moduleInf with
        | some v => (d0, { slot0 with moduleLogSize := v })
        | none => ({ d0 with moduleInf := some maxLogSize },
                   { slot0 with moduleLogSize := maxLogSize })
      let p2 : ModuleDir × DlgrSlot :=
        match p1.1.indexInf with
        | some v => (p1.1, { p1.2 with logIndex := v })
        | none => ({ p1.1 with indexInf := some 0, datFiles := aset p1.1.datFiles 0 [] },
                   { p1.2 with logIndex := 0 })
      let p3 : ModuleDir × DlgrSlot :=
        match p2.1.settingsCfg with
        | some fd => (p2.1, { p2.2 with maxFileSize := fd.1, maxDirSize := fd.2 })
        | none => ({ p2.1 with settingsCfg := some (8192, 4194304) }, p2.2)
      (.ret 1,
       { st with
           dirs := aset st.dirs moduleName.content p3.1,
           settings := Function.update st.settings st.dlgr_idx p3.2,
           logDirExists := true,
           dlgr_idx := st.dlgr_idx + 1 })

/-- main.c:357-466, `dlgr_LogData(moduleName, size, dataIn)`.

Order of effects, as in the source: look the module up by pointer; chdir
into `log/<module>/` (failure: ERR_CHDIR_FAIL); reject `size >
moduleLogSize` (ERR_MAXLOGSIZE_EXCEEDED); `fopen(<logIndex>.dat, "ab")`
(creates the file when absent) and take `ftell` as the current file size;
if that size is at least `maxFileSize`, rotate: increment the in-memory
index, rewrite `index.inf`, `fopen(<newIndex>.dat, "wb")`, then
unconditionally `remove(<newIndex - maxDirSize/maxFileSize>.dat)` and
return ERR_DATA_REMOVE if it fails (the frame is then never written; the
index advance and the new empty file persist); finally write the frame:
6 bytes FBEGIN, `sizeof(void*)` bytes of the caller's buffer, a padding
loop that calls `fwrite(dataIn, 1, 1, 0)` - the null stream, a crash -
whenever `size < moduleLogSize`, and 4 bytes FEND; close, sync, chdir
back, return 1. -/
def dlgr_LogData (st : DlgrState) (moduleName : CStr) (size : Int)
    (dataIn : List Nat) : CRet × DlgrState :=
  let mod_idx := dlgr_findIdx st moduleName
  let slot := st.settings mod_idx
  if ¬ (st.cwdOk = true ∧ st.logDirExists = true) then (.ret ERR_CHDIR_FAIL, st)
  else
    match alookup st.dirs moduleName.content with
    | none => (.ret ERR_CHDIR_FAIL, { st with cwdOk := false })
    | some dir0 =>
      if size > slot.moduleLogSize then
        (.ret ERR_MAXLOGSIZE_EXCEEDED, { st with cwdOk := false })
      else
        let idx := slot.logIndex
        let dir1 :=
          match alookup dir0.datFiles idx with
          | some _ => dir0
          | none => { dir0 with datFiles := aset dir0.datFiles idx [] }
        let fileSize : Int := ((alookup dir1.datFiles idx).getD []).length
        if fileSize ≥ slot.maxFileSize then
          -- rotation (main.c:412-444)
          let newIdx := idx + 1
          let slot' := { slot with logIndex := newIdx }
          let dir2 :=
            { dir1 with
                indexInf := some newIdx
                datFiles := aset dir1.datFiles newIdx [] }
          let oldIdx := newIdx - Int.tdiv slot.maxDirSize slot.maxFileSize
          match alookup dir2.datFiles oldIdx with
          | none =>
            (.ret ERR_DATA_REMOVE,
             { st with
                 settings := Function.update st.settings mod_idx slot'
                 dirs := aset st.dirs moduleName.content dir2
                 cwdOk := false })
          | some _ =>
            let dir3 := { dir2 with datFiles := aerase dir2.datFiles oldIdx }
            if size < slot.moduleLogSize then
              (.segfault,
               { st with
                   settings := Function.update st.settings mod_idx slot'
                   dirs := aset st.dirs moduleName.content dir3
                   cwdOk := false })
            else
              let frame := FBEGIN ++ dataIn.take PTR_SIZE ++ FEND
              let dir4 := { dir3 with datFiles := appendAt dir3.datFiles newIdx frame }
              (.ret 1,
               { st with
                   settings := Function.update st.settings mod_idx slot'
                   dirs := aset st.dirs moduleName.content dir4 })
        else
          if size < slot.moduleLogSize then
            (.segfault,
             { st with
                 dirs := aset st.dirs moduleName.content dir1
                 cwdOk := false })
          else
            let frame := FBEGIN ++ dataIn.take PTR_SIZE ++ FEND
            let dir4 := { dir1 with datFiles := appendAt dir1.datFiles idx frame }
            (.ret 1, { st with dirs := aset st.dirs moduleName.content dir4 })

/-- `memcpy(output, buffer, n)` where `output` is the caller's buffer:
overwrite its first `n` bytes with the first `n` bytes of `buffer`.  When
`buffer` holds fewer than `n` bytes the C code reads past the allocation
(indeterminate bytes); the model copies the bytes that exist. -/
def memcpyPre (output buffer : List Nat) (n : Nat) : List Nat :=
  buffer.take n ++ output.drop n

/-- The scan loop of `dlgr_retrieve` (main.c:574-578):

`while (buffer - bufferCursor != 0 && numReadLogs < numRequestedLogs) { memcpy(output, buffer, moduleLogSize + FBEGIN_SIZE + FEND_SIZE); numReadLogs++; }`

`cursorDiff` is the value of `buffer - bufferCursor`, which no statement of
the loop body changes; the body copies from the start of `buffer` to the
start of `output` and only increments the counter.  The counter rises by
exactly 1 per iteration, so `numReadLogs < numRequestedLogs` is structured
on `remaining = numRequestedLogs - numReadLogs` (0 when the request is not
positive).  Returns the final `numReadLogs` and the output buffer. -/
def dlgr_retrieveLoop (buffer output : List Nat) (copyLen : Nat)
    (cursorDiff : Int) (numReadLogs : Int) : Nat → Int × List Nat
  | 0 => (numReadLogs, output)
  | remaining + 1 =>
    if cursorDiff ≠ 0 then
      dlgr_retrieveLoop buffer (memcpyPre output buffer copyLen) copyLen
        cursorDiff (numReadLogs + 1) remaining
    else (numReadLogs, output)

/-- main.c:513-589, `dlgr_retrieve(moduleName, output, numRequestedLogs, indexOffset)`.

Order of effects, as in the source: look the module up by pointer; chdir
into `log/<module>/`; open `<logIndex>.dat` read-only (absent:
ERR_DATA_OPEN) - `indexOffset` is accepted but never used; take the file
size; read the whole file and compare `fread`'s return value (the number of
size-1 items read, i.e. the file size) against 1, failing ERR_DATA_READ
whenever the file size differs from 1; set the cursor back
`moduleLogSize - FBEGIN_SIZE + FEND_SIZE` bytes from the end and run the
scan loop; close, free, chdir back and return the number of logs read.
The state is returned because the error paths leave the working directory
inside the module directory. -/
def dlgr_retrieve (st : DlgrState) (moduleName : CStr) (output : List Nat)
    (numRequestedLogs : Int) (indexOffset : Int) :
    CRet × DlgrState × List Nat :=
  let mod_idx := dlgr_findIdx st moduleName
  let slot := st.settings mod_idx
  let _ := indexOffset
  if ¬ (st.cwdOk = true ∧ st.logDirExists = true) then
    (.ret ERR_CHDIR_FAIL, st, output)
  else
    match alookup st.dirs moduleName.content with
    | none => (.ret ERR_CHDIR_FAIL, { st with cwdOk := false }, output)
    | some dir0 =>
      match alookup dir0.datFiles slot.logIndex with
      | none => (.ret ERR_DATA_OPEN, { st with cwdOk := false }, output)
      | some buffer =>
        let fileSize : Int := buffer.length
        if fileSize ≠ 1 then (.ret ERR_DATA_READ, { st with cwdOk := false }, output)
        else
          let cursorDiff : Int := (slot.moduleLogSize - 6 + 4) - fileSize
          let copyLen : Int := slot.moduleLogSize + 6 + 4
          let r := dlgr_retrieveLoop buffer output copyLen.toNat cursorDiff 0
                     numRequestedLogs.toNat
          (.ret r.1, st, r.2)

/-- The while loop of `dlgr_RetrieveData` (main.c:495-502), with an explicit
iteration bound `fuel`: the source loop has none, and when `dlgr_retrieve`
keeps returning 0 the loop never ends (`indexOffset` is incremented but
`dlgr_retrieve` ignores it); `CRet.hang` records that the loop was still
running when the bound ran out.  Results whose value is `.ret _` are
reached within `fuel` iterations and are independent of any larger fuel. -/
def dlgr_RetrieveDataLoop (st : DlgrState) (moduleName : CStr)
    (output : List Nat) (numRequestedLogs numReadLogs indexOffset : Int)
    (fuel : Nat) : CRet × DlgrState × List Nat :=
  match fuel with
  | 0 => (.hang, st, output)
  | f + 1 =>
    if numReadLogs < numRequestedLogs then
      match dlgr_retrieve st moduleName output (numRequestedLogs - numReadLogs)
              indexOffset with
      | (.ret c, st', out') =>
        if c < 0 then (.ret c, st', out')
        else dlgr_RetrieveDataLoop st' moduleName out' numRequestedLogs
               (numReadLogs + c) (indexOffset + 1) f
      | r => r
    else
      if numReadLogs ≠ numRequestedLogs then (.ret ERR_READ_NUM, st, output)
      else (.ret 1, st, output)

/-- main.c:471-511, `dlgr_RetrieveData(moduleName, output, numRequestedLogs)`:
run the retrieval loop from `numReadLogs = 0`, `indexOffset = 0`; any
negative return from `dlgr_retrieve` is passed through; after the loop,
`ERR_READ_NUM` if the count differs from the request, else 1. -/
def dlgr_RetrieveData (st : DlgrState) (moduleName : CStr) (output : List Nat)
    (numRequestedLogs : Int) (fuel : Nat) : CRet × DlgrState × List Nat :=
  dlgr_RetrieveDataLoop st moduleName output numRequestedLogs 0 0 fuel

/-- main.c:591-607, `dlgr_QueryMemorySize(moduleName, numRequestedLogs)`:
look the module up by pointer and return
`numRequestedLogs * (moduleLogSize + FBEGIN_SIZE + FEND_SIZE)`.  The
function performs no chdir and writes nothing; the state is returned
unchanged alongside the value. -/
def dlgr_QueryMemorySize (st : DlgrState) (moduleName : CStr)
    (numRequestedLogs : Int) : Int × DlgrState :=
  let mod_idx := dlgr_findIdx st moduleName
  let moduleLogSize := (st.settings mod_idx).moduleLogSize
  (numRequestedLogs * (moduleLogSize + 6 + 4), st)

/-- main.c:609-671, `dlgr_EditSettings(moduleName, value, setting)`.

Order of effects, as in the source: look the module up by pointer; chdir
into `log/<module>/`; switch on `setting`: `MAX_FILE_SIZE` rejects values
outside [1, SIZE_FILE_HARDLIMIT] with ERR_SETTINGS_SET before touching
anything, else assigns the in-memory `maxFileSize`; `MAX_DIR_SIZE` the same
against SIZE_DIR_HARDLIMIT for `maxDirSize`; any other selector returns
ERR_DEFAULT_CASE.  After a successful switch the whole `settings.cfg` is
rewritten from the in-memory pair and the function returns 1.  Rejection
paths return before the rewrite, so both the in-memory pair and the file
keep their values (only the working directory is leaked). -/
def dlgr_EditSettings (st : DlgrState) (moduleName : CStr) (value : Int)
    (setting : Int) : CRet × DlgrState :=
  let mod_idx := dlgr_findIdx st moduleName
  if ¬ (st.cwdOk = true ∧ st.logDirExists = true) then (.ret ERR_CHDIR_FAIL, st)
  else
    match alookup st.dirs moduleName.content with
    | none => (.ret ERR_CHDIR_FAIL, { st with cwdOk := false })
    | some dir0 =>
      if setting = MAX_FILE_SIZE then
        if value > SIZE_FILE_HARDLIMIT ∨ value < 1 then
          (.ret ERR_SETTINGS_SET, { st with cwdOk := false })
        else
          let slot' := { st.settings mod_idx with maxFileSize := value }
          let dir' := { dir0 with settingsCfg := some (slot'.maxFileSize, slot'.maxDirSize) }
          (.ret 1,
           { st with
               settings := Function.update st.settings mod_idx slot'
               dirs := aset st.dirs moduleName.content dir' })
      else if setting = MAX_DIR_SIZE then
        if value > SIZE_DIR_HARDLIMIT ∨ value < 1 then
          (.ret ERR_SETTINGS_SET, { st with cwdOk := false })
        else
          let slot' := { st.settings mod_idx with maxDirSize := value }
          let dir' := { dir0 with settingsCfg := some (slot'.maxFileSize, slot'.maxDirSize) }
          (.ret 1,
           { st with
               settings := Function.update st.settings mod_idx slot'
               dirs := aset st.dirs moduleName.content dir' })
      else (.ret ERR_DEFAULT_CASE, { st with cwdOk := false })

/-! ## Derived observations on a state -/

/-- The on-disk directory of a module (by the name string, as `chdir` sees it). -/
def moduleDirOf (st : DlgrState) (name : CStr) : Option ModuleDir :=
  alookup st.dirs name.content

/-- The content of `log/<name>/<i>.dat`, when that file exists. -/
def datFile (st : DlgrState) (name : CStr) (i : Int) : Option (List Nat) :=
  (moduleDirOf st name).bind fun d => alookup d.datFiles i

/-- The in-memory active file index of the module's slot. -/
def activeIndex (st : DlgrState) (name : CStr) : Int :=
  (st.settings (dlgr_findIdx st name)).logIndex

/-- The size in bytes of the active log file (0 when it does not exist). -/
def activeFileSize (st : DlgrState) (name : CStr) : Nat :=
  ((datFile st name (activeIndex st name)).getD []).length

/-- The frame the specification describes (spec section 3, `LogFrame`):
header magic, the payload left-justified and zero-padded to the record
size, footer magic.  Stated only to be compared against what the code
writes. -/
def specFrame (recordSize : Nat) (payload : List Nat) : List Nat :=
  FBEGIN ++ (payload.take recordSize ++ List.replicate (recordSize - payload.length) 0) ++ FEND

/-! ## A concrete scenario

One enabled module (`num_systems = 1`) whose name string "eps" sits at some
address; the junk the `malloc`ed arrays start with is fixed to a concrete
slot (the model of indeterminate memory must pick something for a closed
run; these values match the on-disk defaults so that the run is the
benign one). -/

/-- The module's name pointer. -/
def pEps : CStr := { addr := 1000, content := "eps" }

/-- A different pointer whose pointee is the identical string "eps". -/
def pEps2 : CStr := { addr := 2000, content := "eps" }

/-- Junk initially in the unwritten `dlgr_modname` cells. -/
def junkStr : CStr := { addr := 0, content := "" }

/-- Junk initially in the unwritten `dlgr_settings` cells. -/
def junkSlot : DlgrSlot :=
  { moduleLogSize := 0, logIndex := 0, maxFileSize := 8192, maxDirSize := 4194304 }

/-- Process start: empty `log/` tree, arrays unwritten, at the root. -/
def st0 : DlgrState :=
  { num_systems := 1, dlgr_idx := 0, modname := fun _ => junkStr,
    settings := fun _ => junkSlot, dirs := [], logDirExists := false,
    cwdOk := true }

/-- An 8-byte payload (record size 8 in scenario A). -/
def payload8 : List Nat := [65, 66, 67, 68, 69, 70, 71, 72]

/-- Scenario A after `dlgr_init("eps", 8)`. -/
def stInit : DlgrState := (dlgr_init st0 pEps 8).2

/-- Scenario A after `dlgr_EditSettings("eps", 10, MAX_FILE_SIZE)`:
`maxFileSize` is now 10 < one frame. -/
def stF : DlgrState := (dlgr_EditSettings stInit pEps 10 MAX_FILE_SIZE).2

/-- Scenario A after one successful append of `payload8`. -/
def stG : DlgrState := (dlgr_LogData stF pEps 8 payload8).2

/-- Scenario B (record size 100) after `dlgr_init("eps", 100)`. -/
def stR100 : DlgrState := (dlgr_init st0 pEps 100).2

/-- A 100-byte payload of byte value 7. -/
def payload100 : List Nat := List.replicate 100 7

/-- An 18-byte all-zero output buffer (what `dlgr_QueryMemorySize` sizes
for one log at record size 8). -/
def out18 : List Nat := List.replicate 18 0

/-- A pointer sharing `pEps2`'s address but with different characters
stored at it (for showing the lookup reads only the address). -/
def pOther : CStr := { addr := 2000, content := "zzz" }

/-- The on-disk directory of "eps" in state `stG` (one 18-byte frame in
`0.dat`), spelled out for use as a concrete witness. -/
def stGdir : ModuleDir :=
  { moduleInf := some 8, indexInf := some 0, settingsCfg := some (10, 4194304),
    datFiles := [(0, FBEGIN ++ payload8 ++ FEND)] }

/-- The on-disk directory of "eps" right after the first `dlgr_init`
(empty `0.dat`, default settings), spelled out for use as a concrete
witness. -/
def stInitDir : ModuleDir :=
  { moduleInf := some 8, indexInf := some 0, settingsCfg := some (8192, 4194304),
    datFiles := [(0, [])] }

/-- The on-disk directory of "eps" in state `stF` (maxFileSize edited to
10, `0.dat` still empty), spelled out for use as a concrete witness. -/
def stFdir : ModuleDir :=
  { moduleInf := some 8, indexInf := some 0, settingsCfg := some (10, 4194304),
    datFiles := [(0, [])] }

/-! ## Lemmas about the association-list primitives -/

theorem alookup_aset_self {α β : Type} [DecidableEq α] (l : List (α × β)) (k : α) (v : β) :
    alookup (aset l k v) k = some v := by
  induction l with
  | nil => simp [aset, alookup]
  | cons p t ih =>
    obtain ⟨a, b⟩ := p
    by_cases h : a = k
    · simp [aset, alookup, h]
    · simpa [aset, alookup, h] using ih

theorem alookup_aset_ne {α β : Type} [DecidableEq α] (l : List (α × β)) {k k' : α} (v : β)
    (h : k' ≠ k) : alookup (aset l k v) k' = alookup l k' := by
  have h' : k ≠ k' := Ne.symm h
  induction l with
  | nil => simp [aset, alookup, h']
  | cons p t ih =>
    obtain ⟨a, b⟩ := p
    by_cases hp : a = k
    · subst hp
      simp [aset, alookup, h']
    · by_cases hp' : a = k'
      · subst hp'
        simp only [aset]
        rw [if_neg hp]
        simp [alookup]
      · simp [aset, alookup, hp, hp', ih]

theorem alookup_eq_none {α β : Type} [DecidableEq α] (l : List (α × β)) (k : α)
    (h : k ∉ l.map Prod.fst) : alookup l k = none := by
  induction l with
  | nil => rfl
  | cons p t ih =>
    obtain ⟨a, b⟩ := p
    simp only [List.map_cons, List.mem_cons] at h
    push_neg at h
    have ha : a ≠ k := Ne.symm h.1
    simp [alookup, ha, ih h.2]

theorem alookup_aerase_ne {α β : Type} [DecidableEq α] (l : List (α × β)) {k k' : α}
    (h : k' ≠ k) : alookup (aerase l k) k' = alookup l k' := by
  induction l with
  | nil => simp [aerase, alookup]
  | cons p t ih =>
    obtain ⟨a, b⟩ := p
    by_cases hp : a = k
    · subst hp
      have h' : a ≠ k' := Ne.symm h
      simp [aerase, alookup, h']
    · by_cases hp' : a = k'
      · subst hp'
        simp only [aerase]
        rw [if_neg hp]
        simp [alookup]
      · simp [aerase, alookup, hp, hp', ih]

theorem alookup_aerase_self {α β : Type} [DecidableEq α] (l : List (α × β)) (k : α)
    (h : (l.map Prod.fst).Nodup) : alookup (aerase l k) k = none := by
  induction l with
  | nil => simp [aerase, alookup]
  | cons p t ih =>
    obtain ⟨a, b⟩ := p
    simp only [List.map_cons, List.nodup_cons] at h
    by_cases hp : a = k
    · subst hp
      simp only [aerase, if_pos rfl]
      exact alookup_eq_none t a h.1
    · simp [aerase, alookup, hp, ih h.2]

theorem keys_aset {α β : Type} [DecidableEq α] (l : List (α × β)) (k : α) (v : β) :
    (aset l k v).map Prod.fst =
      if k ∈ l.map Prod.fst then l.map Prod.fst else l.map Prod.fst ++ [k] := by
  induction l with
  | nil => simp [aset]
  | cons p t ih =>
    obtain ⟨a, b⟩ := p
    by_cases h : a = k
    · subst h
      simp [aset]
    · have h' : k ≠ a := Ne.symm h
      by_cases hm : k ∈ t.map Prod.fst
      · simp [aset, h, ih, hm, h']
      · simp [aset, h, ih, hm, h']

theorem nodup_keys_aset {α β : Type} [DecidableEq α] (l : List (α × β)) (k : α) (v : β)
    (h : (l.map Prod.fst).Nodup) : ((aset l k v).map Prod.fst).Nodup := by
  rw [keys_aset]
  by_cases hm : k ∈ l.map Prod.fst
  · simpa [hm] using h
  · simp only [hm, if_false]
    rw [List.nodup_append]
    refine ⟨h, List.nodup_singleton k, ?_⟩
    intro x hx hxk
    rw [List.mem_singleton] at hxk
    subst hxk
    exact hm hx

theorem alookup_appendAt_self (fs : List (Int × List Nat)) (i : Int) (bytes : List Nat) :
    alookup (appendAt fs i bytes) i = (alookup fs i).map (fun c => c ++ bytes) := by
  induction fs with
  | nil => simp [appendAt, alookup]
  | cons p t ih =>
    obtain ⟨a, b⟩ := p
    show alookup ((if a = i then (a, b ++ bytes) else (a, b)) :: appendAt t i bytes) i = _
    by_cases hp : a = i
    · rw [if_pos hp]
      subst hp
      simp [alookup]
    · rw [if_neg hp]
      simp [alookup, hp, ih]

theorem alookup_appendAt_ne (fs : List (Int × List Nat)) {i j : Int} (bytes : List Nat)
    (h : j ≠ i) : alookup (appendAt fs i bytes) j = alookup fs j := by
  induction fs with
  | nil => simp [appendAt, alookup]
  | cons p t ih =>
    obtain ⟨a, b⟩ := p
    show alookup ((if a = i then (a, b ++ bytes) else (a, b)) :: appendAt t i bytes) j = _
    by_cases hp : a = i
    · rw [if_pos hp]
      subst hp
      have h' : a ≠ j := Ne.symm h
      simp [alookup, h', ih]
    · rw [if_neg hp]
      by_cases hp' : a = j
      · simp [alookup, hp']
      · simp [alookup, hp', ih]

theorem aset_alookup_eq {α β : Type} [DecidableEq α] (l : List (α × β)) (k : α) (v : β)
    (h : alookup l k = some v) : aset l k v = l := by
  induction l with
  | nil => simp [alookup] at h
  | cons p t ih =>
    obtain ⟨a, b⟩ := p
    by_cases hp : a = k
    · simp only [alookup, if_pos hp] at h
      simp_all [aset]
    · simp only [alookup, if_neg hp] at h
      simp [aset, hp, ih h]

/-! ## Claim theorems -/

/-- Claim C1, counterexample.  The claim says a completed successful append
never leaves the active file larger than the configured `maxFileSize`.
Concretely: register "eps" with record size 8, set `maxFileSize := 10`
through `dlgr_EditSettings` (both calls succeed), then append an 8-byte
payload.  The append returns success, yet the active file `0.dat` now holds
18 bytes > 10: the code only rotates once the file size has already
reached `maxFileSize` (main.c:412 tests `fileSize >= maxFileSize` before
the write, not whether the write would overflow). -/
theorem c1_counterexample :
    (dlgr_EditSettings stInit pEps 10 MAX_FILE_SIZE).1 = CRet.ret 1 ∧
    (stF.settings 0).maxFileSize = 10 ∧
    (dlgr_LogData stF pEps 8 payload8).1 = CRet.ret 1 ∧
    activeIndex stG pEps = 0 ∧
    datFile stG pEps 0 = some (FBEGIN ++ payload8 ++ FEND) ∧
    activeFileSize stG pEps = 18 := by
  decide

/-- Claim C2 (code bug): the promised round trip fails.  Register "eps"
with record size 8 and append the 8-byte payload `payload8`; the append
succeeds and `0.dat` holds one complete 18-byte frame.  Retrieving the
single most recent log then returns ERR_DATA_READ and leaves the caller's
buffer untouched, because `dlgr_retrieve` compares `fread`'s return value
(the number of size-1 items read, i.e. the file size) against 1
(main.c:565), so every log file whose size differs from one byte is
rejected before any frame is decoded. -/
theorem c2_theorem :
    (dlgr_LogData stF pEps 8 payload8).1 = CRet.ret 1 ∧
    activeFileSize stG pEps = 18 ∧
    (dlgr_RetrieveData stG pEps out18 1 4).1 = CRet.ret ERR_DATA_READ ∧
    (dlgr_RetrieveData stG pEps out18 1 4).2.2 = out18 := by
  decide

/-- Claim C3 (code bug): eviction is not conditional.  In state `stG`
("eps", record size 8, `maxFileSize` 10, `maxDirSize` 4194304, so the
budget is 419430 files) exactly one file is retained, yet the append that
triggers the first rotation unconditionally attempts
`remove("-419429.dat")` (main.c:438-441), which fails, and the whole
append aborts with ERR_DATA_REMOVE; no file is deleted, the index advance
and the new empty `1.dat` persist, and no frame is written.  The claim -
delete only when the retained count would exceed the budget - would have
this rotation delete nothing and the append succeed. -/
theorem c3_theorem :
    Int.tdiv (stG.settings 0).maxDirSize (stG.settings 0).maxFileSize = 419430 ∧
    (moduleDirOf stG pEps).map (fun d => d.datFiles.length) = some 1 ∧
    (dlgr_LogData stG pEps 8 payload8).1 = CRet.ret ERR_DATA_REMOVE ∧
    datFile (dlgr_LogData stG pEps 8 payload8).2 pEps 0 = datFile stG pEps 0 ∧
    datFile (dlgr_LogData stG pEps 8 payload8).2 pEps 1 = some [] ∧
    activeIndex (dlgr_LogData stG pEps 8 payload8).2 pEps = 1 := by
  decide

/-- Claim C4 (code bug): the frame written is not
header + zero-padded payload + footer.  Register "eps" with record size
100 and append a full-length 100-byte payload (all bytes 7): the append
succeeds but writes an 18-byte frame whose payload part is only the first
`sizeof(void*) = 8` bytes of the caller's buffer
(`fwrite(dataIn, sizeof(dataIn), 1, fDataDat)`, main.c:448), not the
110-byte frame the claim describes.  And appending any payload shorter
than the record size crashes: the padding loop is
`fwrite(dataIn, 1, 1, 0)` (main.c:452), a write to the null stream. -/
theorem c4_theorem :
    (dlgr_LogData stR100 pEps 100 payload100).1 = CRet.ret 1 ∧
    datFile (dlgr_LogData stR100 pEps 100 payload100).2 pEps 0 =
      some (FBEGIN ++ List.replicate 8 7 ++ FEND) ∧
    (FBEGIN ++ List.replicate 8 7 ++ FEND).length = 18 ∧
    (specFrame 100 payload100).length = 110 ∧
    datFile (dlgr_LogData stR100 pEps 100 payload100).2 pEps 0 ≠
      some (specFrame 100 payload100) ∧
    (dlgr_LogData stR100 pEps 50 (List.replicate 50 7)).1 = CRet.segfault := by
  decide

/-- Claim C5 (code bug): the reader does not scan backward in frame-sized
strides.  First, the scan is unreachable for any real log file: after one
successful append the active file holds 18 bytes and `dlgr_retrieve`
fails ERR_DATA_READ (the `fread` check admits only files of size exactly
1).  Second, the scan loop itself makes no progress: its cursor is pulled
back once by `moduleLogSize - FBEGIN_SIZE + FEND_SIZE` (= recordSize - 2,
not 10 + recordSize) bytes and is never advanced in the loop body
(main.c:574-578) - here, with a nonzero cursor difference and 3 requested
logs, the loop reports 3 logs read while the output holds a single copy of
the first `copyLen` bytes of the buffer, written three times to the same
place. -/
theorem c5_theorem :
    activeFileSize stG pEps = 18 ∧
    (dlgr_retrieve stG pEps out18 1 0).1 = CRet.ret ERR_DATA_READ ∧
    dlgr_retrieveLoop [9, 9, 9] [0, 0, 0, 0, 0] 2 5 0 3 = (3, [9, 9, 0, 0, 0]) := by
  decide

/-- Claim C6, counterexample.  The claim says a failed deletion during
rotation is reported but does not prevent the frame from being written to
the new file.  In state `stG` the next append rotates, the deletion of
`-419429.dat` fails, and the function returns ERR_DATA_REMOVE at
main.c:440 - before the frame-writing code at main.c:447-455 ever runs:
the new active file `1.dat` is left empty and the old file unchanged, so
the write is blocked. -/
theorem c6_counterexample :
    (dlgr_LogData stG pEps 8 payload8).1 = CRet.ret ERR_DATA_REMOVE ∧
    datFile (dlgr_LogData stG pEps 8 payload8).2 pEps 1 = some [] ∧
    datFile (dlgr_LogData stG pEps 8 payload8).2 pEps 0 =
      some (FBEGIN ++ payload8 ++ FEND) := by
  decide

/-- Claim C7, counterexample.  The claim says a second `dlgr_init` with a
different record size fails with a registration error.  Concretely: init
"eps" with record size 8, then init the same module with record size 7.
The second call returns 1 (success; every negative code would be a
failure), silently adopts the persisted size 8 for the new slot (the
argument 7 is ignored: main.c:250-257 reads `module.inf` when it exists),
and leaves the on-disk directory unchanged. -/
theorem c7_counterexample :
    (dlgr_init stInit pEps 7).1 = CRet.ret 1 ∧
    ((dlgr_init stInit pEps 7).2.settings 1).moduleLogSize = 8 ∧
    (dlgr_init stInit pEps 7).2.dirs = stInit.dirs ∧
    (dlgr_init stInit pEps 7).2.dlgr_idx = 2 := by
  decide

/-- Helper: when no index below the bound matches the address, the lookup
loop runs to completion and returns its bound (`i + remaining`). -/
theorem findIdxFrom_no_match (modname : Nat → CStr) (addr : Nat) :
    ∀ (remaining i : Nat),
      (∀ j, i ≤ j → j < i + remaining → (modname j).addr ≠ addr) →
      findIdxFrom modname addr i remaining = i + remaining := by
  intro remaining
  induction remaining with
  | zero => intro i _; simp [findIdxFrom]
  | succ r ih =>
    intro i h
    simp only [findIdxFrom]
    rw [if_neg (h i le_rfl (by omega))]
    rw [ih (i + 1) (fun j h1 h2 => h j (by omega) (by omega))]
    omega

/-- Claim C8: `dlgr_QueryMemorySize(moduleName, n)` returns exactly
`n * (recordSize + 10)`, where the record size is the `moduleLogSize` of
the slot found by the pointer lookup, and returns the state unchanged
(the function reads the slot and performs no other action). -/
theorem c8_theorem (st : DlgrState) (moduleName : CStr) (n : Int) :
    dlgr_QueryMemorySize st moduleName n =
      (n * ((st.settings (dlgr_findIdx st moduleName)).moduleLogSize + 10), st) := by
  simp only [dlgr_QueryMemorySize, Prod.mk.injEq]
  exact ⟨by ring, trivial⟩

/-- Claim C9: module identification is by pointer equality, not string
content.  First conjunct: a name pointer whose address matches no
registered entry is not found - the loop falls through to `num_systems`
(reading `dlgr_settings[num_systems]` afterwards is an out-of-bounds
access in the C code), no matter what string the pointer points at.
Second conjunct: the lookup result depends only on the address of the
argument, never on its characters, so a distinct pointer to an identical
string behaves like any other unregistered pointer.  All four post-init
operations (`dlgr_LogData`, `dlgr_retrieve`, `dlgr_QueryMemorySize`,
`dlgr_EditSettings`) compute their `mod_idx` with this `dlgr_findIdx`. -/
theorem c9_theorem :
    (∀ (st : DlgrState) (q : CStr),
        (∀ i, i < st.num_systems → (st.modname i).addr ≠ q.addr) →
        dlgr_findIdx st q = st.num_systems) ∧
    (∀ (st : DlgrState) (q1 q2 : CStr), q1.addr = q2.addr →
        dlgr_findIdx st q1 = dlgr_findIdx st q2) := by
  constructor
  · intro st q h
    unfold dlgr_findIdx
    rw [findIdxFrom_no_match st.modname q.addr st.num_systems 0
      (fun j h1 h2 => h j (by omega))]
    omega
  · intro st q1 q2 h
    unfold dlgr_findIdx
    rw [h]

/-- Witness for C9: in the scenario state, `pEps2` (address 2000, same
string "eps" as the registered `pEps` at address 1000) is not found - the
lookup returns `num_systems = 1` - and the lookup at address 2000 gives
the same answer whatever string the pointer holds. -/
theorem c9_theorem_witness :
    dlgr_findIdx stG pEps2 = stG.num_systems ∧
    dlgr_findIdx stG pEps2 = dlgr_findIdx stG pOther :=
  ⟨c9_theorem.1 stG pEps2 (by decide), c9_theorem.2 stG pEps2 pOther (by decide)⟩

/-- Claim C10: every rejection path of `dlgr_EditSettings` - a value
outside [1, 1048576] for MAX_FILE_SIZE, outside [1, 16777216] for
MAX_DIR_SIZE, or an unrecognized selector - returns an error
(ERR_SETTINGS_SET for the two range rejections, ERR_DEFAULT_CASE for the
unknown selector) with the whole in-memory settings array and the whole
on-disk tree (in particular `settings.cfg`) unchanged: the `switch`
returns before any assignment and before the file rewrite
(main.c:635-652). -/
theorem c10_theorem (st : DlgrState) (moduleName : CStr) (value setting : Int)
    (d : ModuleDir)
    (hcwd : st.cwdOk = true) (hlog : st.logDirExists = true)
    (hdir : alookup st.dirs moduleName.content = some d)
    (hrej : (setting = MAX_FILE_SIZE ∧ (value > SIZE_FILE_HARDLIMIT ∨ value < 1)) ∨
            (setting = MAX_DIR_SIZE ∧ (value > SIZE_DIR_HARDLIMIT ∨ value < 1)) ∨
            (setting ≠ MAX_FILE_SIZE ∧ setting ≠ MAX_DIR_SIZE)) :
    ((dlgr_EditSettings st moduleName value setting).1 = CRet.ret ERR_SETTINGS_SET ∨
     (dlgr_EditSettings st moduleName value setting).1 = CRet.ret ERR_DEFAULT_CASE) ∧
    (dlgr_EditSettings st moduleName value setting).2.settings = st.settings ∧
    (dlgr_EditSettings st moduleName value setting).2.dirs = st.dirs := by
  simp only [dlgr_EditSettings, hcwd, hlog, hdir, and_self, not_true_eq_false,
    if_false]
  rcases hrej with ⟨hs, hv⟩ | ⟨hs, hv⟩ | ⟨h1, h2⟩
  · subst hs
    rw [if_pos rfl, if_pos hv]
    exact ⟨Or.inl rfl, rfl, rfl⟩
  · subst hs
    rw [if_neg (by decide), if_pos rfl, if_pos hv]
    exact ⟨Or.inl rfl, rfl, rfl⟩
  · rw [if_neg h1, if_neg h2]
    exact ⟨Or.inr rfl, rfl, rfl⟩

/-- Witness for C10: in the scenario state, `dlgr_EditSettings("eps", 0,
MAX_FILE_SIZE)` (value 0 < 1) is rejected with every settings slot and the
on-disk tree unchanged. -/
theorem c10_theorem_witness :
    (stG.cwdOk = true ∧ alookup stG.dirs pEps.content = some stGdir) ∧
    (((dlgr_EditSettings stG pEps 0 MAX_FILE_SIZE).1 = CRet.ret ERR_SETTINGS_SET ∨
      (dlgr_EditSettings stG pEps 0 MAX_FILE_SIZE).1 = CRet.ret ERR_DEFAULT_CASE) ∧
     (dlgr_EditSettings stG pEps 0 MAX_FILE_SIZE).2.settings = stG.settings ∧
     (dlgr_EditSettings stG pEps 0 MAX_FILE_SIZE).2.dirs = stG.dirs) :=
  ⟨by decide,
   c10_theorem stG pEps 0 MAX_FILE_SIZE stGdir (by decide) (by decide) (by decide)
     (Or.inl ⟨rfl, Or.inr (by decide)⟩)⟩

/-- Claim C7, amended.  A second `dlgr_init` for an already-registered
module (all three configuration files on disk) with ANY record size
argument at least 1 - equal to the persisted one or not - succeeds and
returns 1: no registration error is raised.  The call ignores the
argument, fills a fresh slot from the persisted `module.inf`,
`index.inf` and `settings.cfg`, stores the name pointer at the new index,
leaves the on-disk directory tree unchanged, and advances `dlgr_idx`. -/
theorem c7_amended (st : DlgrState) (moduleName : CStr) (sz : Int) (d : ModuleDir)
    (r0 i0 f0 d0 : Int)
    (hsz : 1 ≤ sz) (hcwd : st.cwdOk = true)
    (hdir : alookup st.dirs moduleName.content = some d)
    (hmod : d.moduleInf = some r0) (hidx : d.indexInf = some i0)
    (hset : d.settingsCfg = some (f0, d0)) :
    (dlgr_init st moduleName sz).1 = CRet.ret 1 ∧
    (dlgr_init st moduleName sz).2.dirs = st.dirs ∧
    (dlgr_init st moduleName sz).2.settings st.dlgr_idx =
      { moduleLogSize := r0, logIndex := i0, maxFileSize := f0, maxDirSize := d0 } ∧
    (dlgr_init st moduleName sz).2.modname st.dlgr_idx = moduleName ∧
    (dlgr_init st moduleName sz).2.dlgr_idx = st.dlgr_idx + 1 := by
  have hnlt : ¬ sz < 1 := by omega
  simp only [dlgr_init, hnlt, if_false, hcwd, hdir, hmod, hidx, hset]
  refine ⟨rfl, aset_alookup_eq st.dirs moduleName.content d hdir, ?_, ?_, rfl⟩
  · simp [Function.update_same]
  · simp [Function.update_same]

/-- Witness for C7 amended: the concrete second registration of "eps"
with the mismatched record size 7. -/
theorem c7_amended_witness :
    (1 ≤ (7 : Int) ∧ stInit.cwdOk = true ∧
      alookup stInit.dirs pEps.content = some stInitDir) ∧
    ((dlgr_init stInit pEps 7).1 = CRet.ret 1 ∧
     (dlgr_init stInit pEps 7).2.dirs = stInit.dirs ∧
     (dlgr_init stInit pEps 7).2.settings stInit.dlgr_idx =
       { moduleLogSize := 8, logIndex := 0, maxFileSize := 8192, maxDirSize := 4194304 } ∧
     (dlgr_init stInit pEps 7).2.modname stInit.dlgr_idx = pEps ∧
     (dlgr_init stInit pEps 7).2.dlgr_idx = stInit.dlgr_idx + 1) :=
  ⟨by decide,
   c7_amended stInit pEps 7 stInitDir 8 0 8192 4194304 (by decide) (by decide)
     (by decide) (by decide) (by decide) (by decide)⟩

/-- Claim C6, amended.  When an append triggers a rotation and the
unconditional deletion of the file indexed
`newIndex - maxDirSize/maxFileSize` fails (the file does not exist), the
append is aborted with ERR_DATA_REMOVE and the frame is NOT written to
the new active file: the new file stays empty, no other data file
changes, while the rotation's side effects (in-memory and on-disk index
advance, creation of the empty new file) persist. -/
theorem c6_amended (st : DlgrState) (moduleName : CStr) (sz : Int)
    (dataIn : List Nat) (d : ModuleDir) (c : List Nat) (slot : DlgrSlot)
    (oldIdx : Int)
    (hslot : st.settings (dlgr_findIdx st moduleName) = slot)
    (hcwd : st.cwdOk = true) (hlog : st.logDirExists = true)
    (hdir : alookup st.dirs moduleName.content = some d)
    (hsz : sz ≤ slot.moduleLogSize)
    (hc : alookup d.datFiles slot.logIndex = some c)
    (hrot : slot.maxFileSize ≤ (c.length : Int))
    (hold : oldIdx = slot.logIndex + 1 - Int.tdiv slot.maxDirSize slot.maxFileSize)
    (hne : oldIdx ≠ slot.logIndex + 1)
    (habs : alookup d.datFiles oldIdx = none) :
    (dlgr_LogData st moduleName sz dataIn).1 = CRet.ret ERR_DATA_REMOVE ∧
    datFile (dlgr_LogData st moduleName sz dataIn).2 moduleName
      (slot.logIndex + 1) = some [] ∧
    (∀ j : Int, j ≠ slot.logIndex + 1 →
      datFile (dlgr_LogData st moduleName sz dataIn).2 moduleName j =
        alookup d.datFiles j) ∧
    activeIndex (dlgr_LogData st moduleName sz dataIn).2 moduleName =
      slot.logIndex + 1 := by
  have hngt : ¬ sz > slot.moduleLogSize := by omega
  have hremove : alookup (aset d.datFiles (slot.logIndex + 1) []) oldIdx = none := by
    rw [alookup_aset_ne _ _ hne, habs]
  rw [hold] at hremove
  simp only [dlgr_LogData, hslot, hcwd, hlog, hdir, hngt, hc, hrot, hremove,
    and_self, not_true_eq_false, if_false, if_true, ge_iff_le, Option.getD_some,
    if_pos]
  refine ⟨by trivial, ?_, ?_, ?_⟩
  · simp only [datFile, moduleDirOf, alookup_aset_self]
    simp [alookup_aset_self]
  · intro j hj
    simp only [datFile, moduleDirOf, alookup_aset_self]
    simp [alookup_aset_ne _ _ hj]
  · simp only [activeIndex, dlgr_findIdx]
    simp [Function.update_same, dlgr_findIdx]

/-- Claim C1, amended.  The code rotates only once the active file's size
has already reached `maxFileSize` (main.c:412: `fileSize >=
maxFileSize`), and one append writes at most 18 bytes (6-byte header,
`sizeof(void*) = 8` payload bytes, 4-byte footer), so the guarantee that
actually holds is: after every completed successful append the active log
file is smaller than `maxFileSize + 18` - it can exceed `maxFileSize` by
up to 17 bytes, not stay within it.  (`maxFileSize >= 1` as every
configured value is; the no-duplicate-keys hypothesis says the directory
holds one file per index, as every state built by the code does.) -/
theorem c1_amended (st : DlgrState) (moduleName : CStr) (sz : Int)
    (dataIn : List Nat) (d : ModuleDir)
    (hdir : alookup st.dirs moduleName.content = some d)
    (hwf : (d.datFiles.map Prod.fst).Nodup)
    (hF : 1 ≤ (st.settings (dlgr_findIdx st moduleName)).maxFileSize)
    (hret : (dlgr_LogData st moduleName sz dataIn).1 = CRet.ret 1) :
    (activeFileSize (dlgr_LogData st moduleName sz dataIn).2 moduleName : Int) <
      (st.settings (dlgr_findIdx st moduleName)).maxFileSize + 18 := by
  have hlen : (FBEGIN ++ dataIn.take PTR_SIZE ++ FEND).length ≤ 18 := by
    simp only [FBEGIN, FEND, PTR_SIZE, List.length_append, List.length_take,
      List.length_cons, List.length_nil]
    omega
  set q := dlgr_LogData st moduleName sz dataIn with hq
  simp only [dlgr_LogData, hdir] at hq
  split at hq
  case isTrue => rw [hq] at hret; simp [ERR_CHDIR_FAIL] at hret
  case isFalse =>
    split at hq
    case isTrue => rw [hq] at hret; simp [ERR_MAXLOGSIZE_EXCEEDED] at hret
    case isFalse =>
      cases heq : alookup d.datFiles (st.settings (dlgr_findIdx st moduleName)).logIndex with
      | some c =>
        simp only [heq, Option.getD_some] at hq
        split at hq
        case isTrue hge =>
          -- rotation branch
          split at hq
          · rw [hq] at hret; simp [ERR_DATA_REMOVE] at hret
          · split at hq
            case isTrue => rw [hq] at hret; simp at hret
            case isFalse hpad =>
              rw [hq]
              simp only [activeFileSize, datFile, moduleDirOf, activeIndex,
                dlgr_findIdx]
              simp only [Function.update_same, alookup_aset_self,
                Option.some_bind, Option.getD_some]
              by_cases hcase :
                  (st.settings
                      (findIdxFrom st.modname moduleName.addr 0 st.num_systems)).logIndex +
                    1 -
                    Int.tdiv
                      (st.settings
                        (findIdxFrom st.modname moduleName.addr 0 st.num_systems)).maxDirSize
                      (st.settings
                        (findIdxFrom st.modname moduleName.addr 0 st.num_systems)).maxFileSize =
                  (st.settings
                      (findIdxFrom st.modname moduleName.addr 0 st.num_systems)).logIndex + 1
              · rw [alookup_appendAt_self, hcase, alookup_aerase_self _ _
                  (nodup_keys_aset _ _ _ hwf)]
                simp only [dlgr_findIdx] at hF
                simp
                omega
              · rw [alookup_appendAt_self,
                  alookup_aerase_ne _ (Ne.symm hcase),
                  alookup_aset_self]
                simp only [Option.map_some', Option.getD_some, List.nil_append]
                simp only [dlgr_findIdx] at hF
                omega
        case isFalse hlt =>
          -- no rotation: plain append to the existing active file
          split at hq
          case isTrue => rw [hq] at hret; simp at hret
          case isFalse hpad =>
            rw [hq]
            simp only [activeFileSize, datFile, moduleDirOf, activeIndex,
              dlgr_findIdx]
            simp only [alookup_aset_self, Option.some_bind, Option.getD_some]
            rw [alookup_appendAt_self]
            simp only [dlgr_findIdx] at heq
            rw [heq]
            simp only [Option.map_some', Option.getD_some]
            simp only [dlgr_findIdx] at hlt hF
            rw [List.length_append]
            push_cast at hlt ⊢
            omega
      | none =>
        simp only [heq] at hq
        rw [alookup_aset_self] at hq
        simp only [Option.getD_some, List.length_nil] at hq
        split at hq
        case isTrue hge =>
          -- rotation with an empty active file needs maxFileSize <= 0
          refine absurd hge ?_
          omega
        case isFalse hlt =>
          split at hq
          case isTrue => rw [hq] at hret; simp at hret
          case isFalse hpad =>
            rw [hq]
            simp only [activeFileSize, datFile, moduleDirOf, activeIndex,
              dlgr_findIdx]
            simp only [alookup_aset_self, Option.some_bind, Option.getD_some]
            rw [alookup_appendAt_self, alookup_aset_self]
            simp only [Option.map_some', Option.getD_some, List.nil_append]
            simp only [dlgr_findIdx] at hF
            omega

/-- Witness for C1 amended: the concrete append of scenario A (record
size 8, `maxFileSize` 10) satisfies the amended bound: the active file
ends at 18 bytes, which is below 10 + 18. -/
theorem c1_amended_witness :
    ((dlgr_LogData stF pEps 8 payload8).1 = CRet.ret 1 ∧
      1 ≤ (stF.settings (dlgr_findIdx stF pEps)).maxFileSize) ∧
    (activeFileSize (dlgr_LogData stF pEps 8 payload8).2 pEps : Int) <
      (stF.settings (dlgr_findIdx stF pEps)).maxFileSize + 18 :=
  ⟨⟨by decide, by decide⟩,
   c1_amended stF pEps 8 payload8 stFdir (by decide) (by decide) (by decide)
     (by decide)⟩

/-- Witness for C6 amended: the concrete failing rotation of scenario A
(the append on `stG`): ERR_DATA_REMOVE, the new active file `1.dat` left
empty, every other file untouched, the index advanced to 1. -/
theorem c6_amended_witness :
    (stG.settings (dlgr_findIdx stG pEps) = ⟨8, 0, 10, 4194304⟩ ∧
      alookup stG.dirs pEps.content = some stGdir ∧
      alookup stGdir.datFiles 0 = some (FBEGIN ++ payload8 ++ FEND)) ∧
    ((dlgr_LogData stG pEps 8 payload8).1 = CRet.ret ERR_DATA_REMOVE ∧
     datFile (dlgr_LogData stG pEps 8 payload8).2 pEps (0 + 1) = some [] ∧
     (∀ j : Int, j ≠ 0 + 1 →
       datFile (dlgr_LogData stG pEps 8 payload8).2 pEps j =
         alookup stGdir.datFiles j) ∧
     activeIndex (dlgr_LogData stG pEps 8 payload8).2 pEps = 0 + 1) :=
  ⟨⟨by decide, by decide, by decide⟩,
   c6_amended stG pEps 8 payload8 stGdir (FBEGIN ++ payload8 ++ FEND)
     ⟨8, 0, 10, 4194304⟩ (-419429) (by decide) (by decide) (by decide)
     (by decide) (by decide) (by decide) (by decide) (by decide) (by decide)
     (by decide)⟩

end Dlgr
